import Mathlib

/-!
Verification of the dead-man's-switch deadline and release engine of the
`dead_man_switch_v2` repository, against its natural-language specification.

The embedding models timestamps (Python `datetime`) as `Int` microseconds
since the epoch, so `timedelta(days=d)` becomes multiplication by the number
of microseconds in a day.  Wall-clock reads (`datetime.utcnow()`) become an
explicit `now : Int` parameter.  The functions are translated from
`src/apps/api/app/models/message.py`; components that exist in the source
only as unimplemented route placeholders (the check-in route, the password
gate, the delivery dispatcher) are modelled from the specification text and
are marked `Modelled from the spec:` in their doc comments.
-/

/-- Microseconds in a day: `timedelta(days=d)` as an `Int` duration. -/
def timedeltaDays (d : Int) : Int := d * 86400000000

/-- Message status enumeration (`MessageStatus` in `models/message.py`). -/
inductive MessageStatus where
  | draft
  | active
  | delivered
  | cancelled
  | expired
  | scheduled
  | paused
deriving DecidableEq, Repr

/-- The fields of the `Message` model (`models/message.py`) that the
deadline, check-in and access-gate logic reads or writes.  Timestamps are
`Int` microseconds; `check_in_interval` and `grace_period` are day counts
(declared `Field(ge=1, le=365)` and `Field(ge=1, le=30)` in the source). -/
structure Message where
  user_id : Nat
  check_in_interval : Int
  grace_period : Int
  last_check_in : Option Int
  next_check_in_deadline : Option Int
  status : MessageStatus
  created_at : Int
  requires_password : Bool
  password_hash : Option String
  max_access_attempts : Int
  access_attempts : Int
deriving DecidableEq, Repr

/-- The deadline expression computed inside `is_overdue_for_checkin`
(lines 189-191 of `models/message.py`):
`self.last_check_in + timedelta(days=self.check_in_interval + self.grace_period)`. -/
def Message.overdue_deadline (m : Message) (lastCheckIn : Int) : Int :=
  lastCheckIn + timedeltaDays (m.check_in_interval + m.grace_period)

/-- Translation of `Message.is_overdue_for_checkin` (lines 184-192):
returns `False` when `last_check_in` is absent or the status is not
`active`; otherwise compares `now` against the interval-plus-grace
deadline. -/
def Message.is_overdue_for_checkin (m : Message) (now : Int) : Bool :=
  match m.last_check_in with
  | none => false
  | some lastCheckIn =>
      if m.status ≠ MessageStatus.active then false
      else decide (now > m.overdue_deadline lastCheckIn)

/-- Translation of `Message.get_next_checkin_deadline` (lines 194-198):
`last_check_in + timedelta(days=check_in_interval)`, and
`datetime.utcnow() + timedelta(days=check_in_interval)` when
`last_check_in` is absent (`now` stands for the wall-clock read). -/
def Message.get_next_checkin_deadline (m : Message) (now : Int) : Int :=
  match m.last_check_in with
  | none => now + timedeltaDays m.check_in_interval
  | some lastCheckIn => lastCheckIn + timedeltaDays m.check_in_interval

/-- Translation of `Message.should_trigger_dissolution` (lines 200-208):
`False` when the status is not `active`, otherwise the result of
`is_overdue_for_checkin`. -/
def Message.should_trigger_dissolution (m : Message) (now : Int) : Bool :=
  if m.status ≠ MessageStatus.active then false
  else if m.is_overdue_for_checkin now then true
  else false

/-- Translation of the `validate_intervals` validator (lines 169-173),
applied by pydantic to both `check_in_interval` and `grace_period`:
raises `ValueError` for any value below 1. -/
def validate_intervals (v : Int) : Except String Int :=
  if v < 1 then Except.error "Interval must be at least 1 day"
  else Except.ok v

/-- The declared field bounds of the check-in configuration
(`check_in_interval: Field(ge=1, le=365)`, `grace_period: Field(ge=1, le=30)`,
lines 85-86 of `models/message.py`). -/
def Message.checkin_config_valid (m : Message) : Bool :=
  decide (1 ≤ m.check_in_interval ∧ m.check_in_interval ≤ 365 ∧
    1 ≤ m.grace_period ∧ m.grace_period ≤ 30)

/-- The specification's deadline formula, stated in its own words (§4.1):
`last_check_in + interval + grace`, and `created_at + interval` when
`last_check_in` is absent.  This definition follows the spec, not the
source, and exists to be compared with `Message.get_next_checkin_deadline`
and `Message.is_overdue_for_checkin`. -/
def specNextDeadline (m : Message) : Int :=
  match m.last_check_in with
  | none => m.created_at + timedeltaDays m.check_in_interval
  | some lastCheckIn =>
      lastCheckIn + timedeltaDays (m.check_in_interval + m.grace_period)

/-- A concrete message that has never been checked in: `last_check_in` absent,
`check_in_interval = 7`, `grace_period = 3`, `created_at = 0`, active. -/
def msgNeverCheckedIn : Message :=
  { user_id := 1, check_in_interval := 7, grace_period := 3,
    last_check_in := none, next_check_in_deadline := none,
    status := MessageStatus.active, created_at := 0,
    requires_password := false, password_hash := none,
    max_access_attempts := 3, access_attempts := 0 }

/-- A concrete message checked in at time 0: `last_check_in = some 0`,
`check_in_interval = 7`, `grace_period = 3`, active. -/
def msgCheckedInAt0 : Message :=
  { user_id := 1, check_in_interval := 7, grace_period := 3,
    last_check_in := some 0, next_check_in_deadline := none,
    status := MessageStatus.active, created_at := 0,
    requires_password := false, password_hash := none,
    max_access_attempts := 3, access_attempts := 0 }

/-- C1 counterexample: the claim fails on the code at concrete inputs.  For
the message checked in at time 0 with interval 7 and grace 3, the computed
deadline is not `last_check_in + interval + grace` days; and for the
never-checked-in message evaluated one day after `created_at = 0`, the
deadline is not `created_at + interval` days. -/
theorem next_checkin_deadline_claim_counterexample :
    msgCheckedInAt0.get_next_checkin_deadline 0 ≠ 0 + timedeltaDays (7 + 3) ∧
    msgNeverCheckedIn.get_next_checkin_deadline (timedeltaDays 1) ≠
      msgNeverCheckedIn.created_at + timedeltaDays 7 := by
  constructor <;> decide

/-- C1 amended: `get_next_checkin_deadline` returns
`last_check_in + check_in_interval` days — the grace period is not added —
and, when `last_check_in` is absent, `now + check_in_interval` days where
`now` is the wall clock at the call, not `created_at`. -/
theorem get_next_checkin_deadline_spec (m : Message) (now : Int) :
    (∀ t, m.last_check_in = some t →
      m.get_next_checkin_deadline now = t + timedeltaDays m.check_in_interval) ∧
    (m.last_check_in = none →
      m.get_next_checkin_deadline now = now + timedeltaDays m.check_in_interval) := by
  constructor
  · intro t ht
    simp [Message.get_next_checkin_deadline, ht]
  · intro h
    simp [Message.get_next_checkin_deadline, h]

/-- C1 witness: the amended deadline formula evaluated on the two concrete
messages. -/
theorem get_next_checkin_deadline_spec_witness :
    msgCheckedInAt0.get_next_checkin_deadline 0 = 0 + timedeltaDays 7 ∧
    msgNeverCheckedIn.get_next_checkin_deadline 5 = 5 + timedeltaDays 7 :=
  ⟨(get_next_checkin_deadline_spec msgCheckedInAt0 0).1 0 rfl,
   (get_next_checkin_deadline_spec msgNeverCheckedIn 5).2 rfl⟩

/-- C2 counterexample: the biconditional fails at a concrete input.  The
never-checked-in active message at time `8` days satisfies
`status = active` and `now > specNextDeadline` (the deadline is 7 days),
yet `is_overdue_for_checkin` returns `false`. -/
theorem is_overdue_iff_counterexample :
    ¬ (msgNeverCheckedIn.is_overdue_for_checkin (timedeltaDays 8) = true ↔
        (msgNeverCheckedIn.status = MessageStatus.active ∧
          timedeltaDays 8 > specNextDeadline msgNeverCheckedIn)) := by
  decide

/-- C2 amended: for every message with a non-null `last_check_in`,
`is_overdue_for_checkin` returns true iff `status = active` and
`now > specNextDeadline` (for such messages the spec deadline is
`last_check_in + interval + grace`); a message whose `last_check_in`
is null is never reported overdue, even past `created_at + interval`. -/
theorem is_overdue_for_checkin_spec (m : Message) (now : Int) :
    (∀ t, m.last_check_in = some t →
      (m.is_overdue_for_checkin now = true ↔
        (m.status = MessageStatus.active ∧ now > specNextDeadline m))) ∧
    (m.last_check_in = none → m.is_overdue_for_checkin now = false) := by
  constructor
  · intro t ht
    by_cases hs : m.status = MessageStatus.active <;>
      simp [Message.is_overdue_for_checkin, Message.overdue_deadline,
        specNextDeadline, ht, hs]
  · intro h
    simp [Message.is_overdue_for_checkin, h]

/-- C2 witness: the amended overdue characterisation evaluated on the
message checked in at time 0, eleven days later. -/
theorem is_overdue_for_checkin_spec_witness :
    msgCheckedInAt0.is_overdue_for_checkin (timedeltaDays 11) = true ↔
      (msgCheckedInAt0.status = MessageStatus.active ∧
        timedeltaDays 11 > specNextDeadline msgCheckedInAt0) :=
  (is_overdue_for_checkin_spec msgCheckedInAt0 (timedeltaDays 11)).1 0 rfl

/-- C5: for every message with a non-null `last_check_in`, the deadline used
by `is_overdue_for_checkin` equals `get_next_checkin_deadline` plus
`grace_period` days, so whenever `grace_period ≥ 1` the two functions derive
different deadlines. -/
theorem overdue_deadline_eq_next_deadline_plus_grace (m : Message) (now t : Int)
    (h : m.last_check_in = some t) :
    m.overdue_deadline t =
      m.get_next_checkin_deadline now + timedeltaDays m.grace_period ∧
    (1 ≤ m.grace_period →
      m.overdue_deadline t ≠ m.get_next_checkin_deadline now) := by
  constructor
  · simp [Message.overdue_deadline, Message.get_next_checkin_deadline, h,
      timedeltaDays]
    ring
  · intro hg
    simp [Message.overdue_deadline, Message.get_next_checkin_deadline, h,
      timedeltaDays]
    omega

/-- C5 witness: the grace-offset identity evaluated on the message checked
in at time 0 (grace period 3). -/
theorem overdue_deadline_eq_next_deadline_plus_grace_witness :
    msgCheckedInAt0.overdue_deadline 0 =
      msgCheckedInAt0.get_next_checkin_deadline 0 +
        timedeltaDays msgCheckedInAt0.grace_period ∧
    msgCheckedInAt0.overdue_deadline 0 ≠
      msgCheckedInAt0.get_next_checkin_deadline 0 :=
  ⟨(overdue_deadline_eq_next_deadline_plus_grace msgCheckedInAt0 0 0 rfl).1,
   (overdue_deadline_eq_next_deadline_plus_grace msgCheckedInAt0 0 0 rfl).2
     (by decide)⟩

/-- C6 counterexample: `grace_period = 0` is not accepted.  The
`validate_intervals` validator, which pydantic applies to `grace_period` as
well as `check_in_interval`, rejects 0, and the declared field bounds
(`ge=1`) exclude a message with `grace_period = 0`. -/
theorem grace_period_zero_rejected :
    validate_intervals 0 = Except.error "Interval must be at least 1 day" ∧
    ({ msgCheckedInAt0 with grace_period := 0 } : Message).checkin_config_valid
      = false := by
  constructor <;> rfl

/-- C6 amended: validation requires `grace_period ≥ 1`, the same lower bound
as `check_in_interval`: `validate_intervals` accepts a value iff it is at
least 1, and the declared field bounds require `1 ≤ grace_period ≤ 30` and
`1 ≤ check_in_interval ≤ 365`; `grace_period = 0` is rejected. -/
theorem validate_intervals_spec (v : Int) (m : Message) :
    (validate_intervals v = Except.ok v ↔ 1 ≤ v) ∧
    (m.checkin_config_valid = true ↔
      (1 ≤ m.check_in_interval ∧ m.check_in_interval ≤ 365 ∧
        1 ≤ m.grace_period ∧ m.grace_period ≤ 30)) := by
  constructor
  · unfold validate_intervals
    split
    · constructor
      · intro h
        exact absurd h (by simp)
      · omega
    · simp
      omega
  · simp [Message.checkin_config_valid]

/-- C8: the next check-in deadline is monotone in `last_check_in` — moving
the last check-in later (interval unchanged) never decreases the deadline —
and re-recording the identical check-in timestamp leaves the deadline
unchanged. -/
theorem get_next_checkin_deadline_monotone (m : Message) (now t tl : Int)
    (h : t ≤ tl) :
    ({ m with last_check_in := some t } : Message).get_next_checkin_deadline now
      ≤ ({ m with last_check_in := some tl } : Message).get_next_checkin_deadline
          now ∧
    (m.last_check_in = some t →
      ({ m with last_check_in := some t } : Message).get_next_checkin_deadline
          now = m.get_next_checkin_deadline now) := by
  constructor
  · simp [Message.get_next_checkin_deadline]
    omega
  · intro hm
    simp [Message.get_next_checkin_deadline, hm]

/-- C8 witness: monotonicity and idempotence evaluated on the message
checked in at time 0, with the later timestamp 1. -/
theorem get_next_checkin_deadline_monotone_witness :
    ({ msgCheckedInAt0 with last_check_in := some 0 }
        : Message).get_next_checkin_deadline 0
      ≤ ({ msgCheckedInAt0 with last_check_in := some 1 }
          : Message).get_next_checkin_deadline 0 ∧
    ({ msgCheckedInAt0 with last_check_in := some 0 }
        : Message).get_next_checkin_deadline 0
      = msgCheckedInAt0.get_next_checkin_deadline 0 :=
  ⟨(get_next_checkin_deadline_monotone msgCheckedInAt0 0 0 1 (by decide)).1,
   (get_next_checkin_deadline_monotone msgCheckedInAt0 0 0 1 (by decide)).2 rfl⟩

/-- C9: a message whose `last_check_in` is `None` is never reported overdue
and never triggers dissolution, whatever its status, `created_at`, or the
current time. -/
theorem not_overdue_of_no_checkin (m : Message) (now : Int)
    (h : m.last_check_in = none) :
    m.is_overdue_for_checkin now = false ∧
    m.should_trigger_dissolution now = false := by
  have hov : m.is_overdue_for_checkin now = false := by
    simp [Message.is_overdue_for_checkin, h]
  refine ⟨hov, ?_⟩
  by_cases hs : m.status = MessageStatus.active <;>
    simp [Message.should_trigger_dissolution, hov, hs]

/-- C9 witness: the never-checked-in message is not overdue at an arbitrary
late time. -/
theorem not_overdue_of_no_checkin_witness :
    msgNeverCheckedIn.is_overdue_for_checkin (timedeltaDays 1000) = false ∧
    msgNeverCheckedIn.should_trigger_dissolution (timedeltaDays 1000) = false :=
  not_overdue_of_no_checkin msgNeverCheckedIn (timedeltaDays 1000) rfl

/-- C10: `should_trigger_dissolution` returns exactly the value of
`is_overdue_for_checkin` for every message and every time; its extra
`status == active` guard is redundant because `is_overdue_for_checkin`
already returns `false` for non-active messages. -/
theorem should_trigger_dissolution_eq_is_overdue (m : Message) (now : Int) :
    m.should_trigger_dissolution now = m.is_overdue_for_checkin now := by
  rcases hm : m.last_check_in with _ | t <;>
    by_cases hs : m.status = MessageStatus.active <;>
      simp [Message.should_trigger_dissolution, Message.is_overdue_for_checkin,
        hm, hs]

/-- Result type of the Access Gate (§4.6): granted, denied, or locked out. -/
inductive AuthzResult where
  | granted
  | denied
  | locked
deriving DecidableEq, Repr

/-- Modelled from the spec: the Access Gate `Authorize` of §4.6.  The route
`verify_message_password` in `routes/public.py` is an unimplemented
placeholder, so the gate is modelled from the specification text: when
`requires_password` is false access is granted; once
`access_attempts >= max_access_attempts` every attempt fails with `locked`
regardless of password correctness; otherwise the presented password's hash
is compared with `password_hash`, a match granting access and a mismatch
incrementing `access_attempts`.  The hash function is abstract. -/
def authorize (hash : String → String) (presented : String) (m : Message) :
    AuthzResult × Message :=
  if m.requires_password = false then (AuthzResult.granted, m)
  else if m.max_access_attempts ≤ m.access_attempts then (AuthzResult.locked, m)
  else if m.password_hash = some (hash presented) then (AuthzResult.granted, m)
  else (AuthzResult.denied, { m with access_attempts := m.access_attempts + 1 })

/-- Runs a sequence of password attempts through the Access Gate, collecting
the results and threading the message state. -/
def authorizeRun (hash : String → String) (attempts : List String)
    (m : Message) : List AuthzResult × Message :=
  match attempts with
  | [] => ([], m)
  | p :: rest =>
      ((authorize hash p m).1 ::
          (authorizeRun hash rest (authorize hash p m).2).1,
        (authorizeRun hash rest (authorize hash p m).2).2)

/-- Modelled from the spec: the owner-initiated reset of §4.6 that clears
the attempt counter and ends a lockout. -/
def ownerResetAttempts (m : Message) : Message :=
  { m with access_attempts := 0 }

/-- C3: once a password-protected message has `access_attempts` at
`max_access_attempts` or beyond, every attempt in every subsequent sequence
of password attempts — correct passwords included — returns `locked`, and
the message state is unchanged (so, absent an owner reset, access is never
granted after lockout). -/
theorem access_gate_locked_after_max (hash : String → String)
    (attempts : List String) (m : Message)
    (hreq : m.requires_password = true)
    (hlock : m.max_access_attempts ≤ m.access_attempts) :
    (authorizeRun hash attempts m).1 =
      List.replicate attempts.length AuthzResult.locked ∧
    (authorizeRun hash attempts m).2 = m := by
  induction attempts with
  | nil => exact ⟨rfl, rfl⟩
  | cons p rest ih =>
      have hstep : authorize hash p m = (AuthzResult.locked, m) := by
        simp [authorize, hreq, hlock]
      refine ⟨?_, ?_⟩
      · simp only [authorizeRun, hstep, List.length_cons, List.replicate]
        exact congrArg _ ih.1
      · simp only [authorizeRun, hstep]
        exact ih.2

/-- A concrete locked-out password-protected message: the stored hash is
that of the password `pw` (under the identity hash), and
`access_attempts = max_access_attempts = 3`. -/
def msgLockedOut : Message :=
  { msgCheckedInAt0 with
    requires_password := true,
    password_hash := some "pw",
    max_access_attempts := 3,
    access_attempts := 3 }

/-- C3 witness: against the locked-out message, an attempt presenting the
correct password `pw` followed by a wrong one both return `locked` and leave
the state unchanged. -/
theorem access_gate_locked_after_max_witness :
    (authorizeRun (fun s => s) ["pw", "wrong"] msgLockedOut).1 =
      List.replicate 2 AuthzResult.locked ∧
    (authorizeRun (fun s => s) ["pw", "wrong"] msgLockedOut).2 = msgLockedOut :=
  access_gate_locked_after_max (fun s => s) ["pw", "wrong"] msgLockedOut rfl
    (by decide)

/-- Error kinds of the engine (§7) raised by the Check-in Processor. -/
inductive CheckInError where
  | NotFound
  | Forbidden
  | InvalidState
deriving DecidableEq, Repr

/-- Modelled from the spec: the Check-in Processor contract of §4.2.  The
route `check_in_message` in `routes/messages.py` is an unimplemented
placeholder, so the processor is modelled from the specification text:
`NotFound` when the message does not exist, `Forbidden` when the acting
user is not the owner, `InvalidState` when the status is neither `active`
nor `paused`; on success `last_check_in` is set to `now` and
`next_check_in_deadline` is recomputed with `get_next_checkin_deadline`.
(The vacation-window restoration of a paused message is not touched by the
claims and is left out.) -/
def checkIn (db : Nat → Option Message) (messageId userId : Nat)
    (now : Int) : Except CheckInError Message :=
  match db messageId with
  | none => Except.error CheckInError.NotFound
  | some m =>
      if m.user_id ≠ userId then Except.error CheckInError.Forbidden
      else if m.status ≠ MessageStatus.active ∧
          m.status ≠ MessageStatus.paused then
        Except.error CheckInError.InvalidState
      else
        Except.ok { m with
          last_check_in := some now,
          next_check_in_deadline :=
            some (Message.get_next_checkin_deadline
              { m with last_check_in := some now } now) }

/-- C4: the check-in operation fails with `NotFound` for every id not in the
store, with `Forbidden` whenever the stored message's owner differs from the
acting user, and with `InvalidState` whenever the owner acts on a message
whose status is neither `active` nor `paused`; it returns a success value
exactly when a message exists, the acting user owns it, and its status is
`active` or `paused` — and then records `now` as the last check-in and
recomputes the deadline. -/
theorem checkIn_contract (db : Nat → Option Message) (messageId userId : Nat)
    (now : Int) :
    (db messageId = none →
      checkIn db messageId userId now = Except.error CheckInError.NotFound) ∧
    (∀ m, db messageId = some m → m.user_id ≠ userId →
      checkIn db messageId userId now = Except.error CheckInError.Forbidden) ∧
    (∀ m, db messageId = some m → m.user_id = userId →
      m.status ≠ MessageStatus.active → m.status ≠ MessageStatus.paused →
      checkIn db messageId userId now =
        Except.error CheckInError.InvalidState) ∧
    (∀ m, db messageId = some m → m.user_id = userId →
      (m.status = MessageStatus.active ∨ m.status = MessageStatus.paused) →
      checkIn db messageId userId now = Except.ok { m with
        last_check_in := some now,
        next_check_in_deadline :=
          some (now + timedeltaDays m.check_in_interval) }) ∧
    ((∃ r, checkIn db messageId userId now = Except.ok r) ↔
      (∃ m, db messageId = some m ∧ m.user_id = userId ∧
        (m.status = MessageStatus.active ∨ m.status = MessageStatus.paused))) := by
  have hok : ∀ m, db messageId = some m → m.user_id = userId →
      (m.status = MessageStatus.active ∨ m.status = MessageStatus.paused) →
      checkIn db messageId userId now = Except.ok { m with
        last_check_in := some now,
        next_check_in_deadline :=
          some (now + timedeltaDays m.check_in_interval) } := by
    intro m hm hu hst
    rcases hst with ha | hp
    · simp [checkIn, hm, hu, ha, Message.get_next_checkin_deadline]
    · simp [checkIn, hm, hu, hp, Message.get_next_checkin_deadline]
  refine ⟨?_, ?_, ?_, hok, ?_⟩
  · intro h
    simp [checkIn, h]
  · intro m hm hne
    simp [checkIn, hm, hne]
  · intro m hm hu ha hp
    simp [checkIn, hm, hu, ha, hp]
  constructor
  · rintro ⟨r, hr⟩
    rcases hdb : db messageId with _ | m
    · simp [checkIn, hdb] at hr
    · by_cases hu : m.user_id = userId
      · by_cases ha : m.status = MessageStatus.active
        · exact ⟨m, rfl, hu, Or.inl ha⟩
        · by_cases hp : m.status = MessageStatus.paused
          · exact ⟨m, rfl, hu, Or.inr hp⟩
          · simp [checkIn, hdb, hu, ha, hp] at hr
      · simp [checkIn, hdb, hu] at hr
  · rintro ⟨m, hm, hu, hst⟩
    exact ⟨_, hok m hm hu hst⟩

/-- A concrete message owned by user 1 in `draft` status. -/
def msgDraft : Message :=
  { msgCheckedInAt0 with status := MessageStatus.draft }

/-- A concrete message store holding the active message under id 1 and the
draft message under id 3. -/
def dbOne : Nat → Option Message := fun i =>
  if i = 1 then some msgCheckedInAt0
  else if i = 3 then some msgDraft
  else none

/-- C4 witness: against the concrete store, checking in a missing id fails
with `NotFound`, a non-owner fails with `Forbidden`, the owner of a draft
message fails with `InvalidState`, and the owner of the active message
succeeds and gets a fresh deadline. -/
theorem checkIn_contract_witness :
    checkIn dbOne 2 1 0 = Except.error CheckInError.NotFound ∧
    checkIn dbOne 1 5 0 = Except.error CheckInError.Forbidden ∧
    checkIn dbOne 3 1 0 = Except.error CheckInError.InvalidState ∧
    checkIn dbOne 1 1 0 = Except.ok { msgCheckedInAt0 with
      last_check_in := some 0,
      next_check_in_deadline :=
        some (0 + timedeltaDays msgCheckedInAt0.check_in_interval) } :=
  ⟨(checkIn_contract dbOne 2 1 0).1 rfl,
   (checkIn_contract dbOne 1 5 0).2.1 msgCheckedInAt0 rfl (by decide),
   (checkIn_contract dbOne 3 1 0).2.2.1 msgDraft rfl rfl (by decide) (by decide),
   (checkIn_contract dbOne 1 1 0).2.2.2.1 msgCheckedInAt0 rfl rfl (Or.inl rfl)⟩

/-- The fields of the `Recipient` model (`models/message.py` lines 269-300)
that the delivery dispatcher reads or writes: `delivery_status` is one of
the strings `pending`, `sent`, `delivered`, `failed`, `bounced`;
`retry_count` defaults to 0 and `max_retries` to 3. -/
structure Recipient where
  email : String
  delivery_status : String
  failure_reason : Option String
  retry_count : Int
  max_retries : Int
deriving DecidableEq, Repr

/-- Outcome of one transport delivery attempt (§6: `Deliver -> Ack | Error`). -/
inductive DeliveryOutcome where
  | success
  | failure (reason : String)
deriving DecidableEq, Repr

/-- Modelled from the spec: a recipient is eligible for a delivery attempt
when its `delivery_status` is `pending` or `failed` and
`retry_count < max_retries` (§4.5). -/
def Recipient.dispatch_eligible (r : Recipient) : Bool :=
  decide ((r.delivery_status = "pending" ∨ r.delivery_status = "failed") ∧
    r.retry_count < r.max_retries)

/-- Modelled from the spec: one Delivery Dispatcher attempt for a recipient
(§4.5).  The dispatcher is absent from the source (only the `Recipient`
model fields exist), so the attempt is modelled from the specification text:
an eligible recipient is attempted through the transport; on success
`delivery_status` becomes `delivered`; on failure `retry_count` is
incremented, the reason recorded, and the status set to `failed` (terminally
so once `retry_count` reaches `max_retries`).  An ineligible recipient is
left untouched. -/
def dispatchStep (outcome : DeliveryOutcome) (r : Recipient) : Recipient :=
  if r.dispatch_eligible then
    match outcome with
    | DeliveryOutcome.success => { r with delivery_status := "delivered" }
    | DeliveryOutcome.failure reason =>
        { r with
          delivery_status := "failed",
          retry_count := r.retry_count + 1,
          failure_reason := some reason }
  else r

/-- Runs a sequence of transport outcomes through the dispatcher. -/
def dispatchRun (outcomes : List DeliveryOutcome) (r : Recipient) :
    Recipient :=
  match outcomes with
  | [] => r
  | o :: rest => dispatchRun rest (dispatchStep o r)

/-- Counts the delivery attempts actually performed during a run: a step
attempts delivery only when the recipient is eligible. -/
def dispatchAttempts (outcomes : List DeliveryOutcome) (r : Recipient) :
    Nat :=
  match outcomes with
  | [] => 0
  | o :: rest =>
      (if r.dispatch_eligible then 1 else 0) +
        dispatchAttempts rest (dispatchStep o r)

/-- Terminal delivery states of §4.5 reachable from the dispatcher:
delivered, or failed with retries exhausted. -/
def Recipient.delivery_terminal (r : Recipient) : Prop :=
  r.delivery_status = "delivered" ∨
    (r.delivery_status = "failed" ∧ r.retry_count = r.max_retries)

theorem dispatchStep_max_retries (o : DeliveryOutcome) (r : Recipient) :
    (dispatchStep o r).max_retries = r.max_retries := by
  unfold dispatchStep
  split
  · cases o <;> rfl
  · rfl

theorem eligible_retry_lt (r : Recipient)
    (h : r.dispatch_eligible = true) :
    r.retry_count < r.max_retries := by
  simp [Recipient.dispatch_eligible] at h
  exact h.2

theorem dispatchStep_retry_le (o : DeliveryOutcome) (r : Recipient)
    (h : r.retry_count ≤ r.max_retries) :
    (dispatchStep o r).retry_count ≤ (dispatchStep o r).max_retries := by
  unfold dispatchStep
  split
  · rename_i helig
    have hlt := eligible_retry_lt r helig
    cases o
    · simpa using h
    · simp only []
      simpa using hlt
  · simpa using h

theorem dispatchRun_max_retries (outcomes : List DeliveryOutcome)
    (r : Recipient) :
    (dispatchRun outcomes r).max_retries = r.max_retries := by
  induction outcomes generalizing r with
  | nil => rfl
  | cons o rest ih =>
      simp only [dispatchRun]
      rw [ih, dispatchStep_max_retries]

theorem dispatchRun_retry_le (outcomes : List DeliveryOutcome)
    (r : Recipient) (h : r.retry_count ≤ r.max_retries) :
    (dispatchRun outcomes r).retry_count ≤
      (dispatchRun outcomes r).max_retries := by
  induction outcomes generalizing r with
  | nil => simpa [dispatchRun] using h
  | cons o rest ih =>
      simp only [dispatchRun]
      exact ih _ (dispatchStep_retry_le o r h)

theorem dispatchStep_of_terminal (o : DeliveryOutcome) (r : Recipient)
    (h : r.delivery_terminal) :
    dispatchStep o r = r := by
  have helig : r.dispatch_eligible = false := by
    rcases h with hd | ⟨hf, hr⟩
    · simp [Recipient.dispatch_eligible, hd]
    · simp [Recipient.dispatch_eligible, hf, hr]
  simp [dispatchStep, helig]

theorem dispatchRun_of_terminal (outcomes : List DeliveryOutcome)
    (r : Recipient) (h : r.delivery_terminal) :
    dispatchRun outcomes r = r := by
  induction outcomes with
  | nil => rfl
  | cons o rest ih =>
      simp only [dispatchRun, dispatchStep_of_terminal o r h]
      exact ih

theorem dispatchStep_of_not_eligible (o : DeliveryOutcome) (r : Recipient)
    (h : r.dispatch_eligible = false) :
    dispatchStep o r = r := by
  simp [dispatchStep, h]

theorem dispatchAttempts_of_not_eligible (outcomes : List DeliveryOutcome)
    (r : Recipient) (h : r.dispatch_eligible = false) :
    dispatchAttempts outcomes r = 0 := by
  induction outcomes with
  | nil => rfl
  | cons o rest ih =>
      simp only [dispatchAttempts, h, dispatchStep_of_not_eligible o r h]
      simpa using ih

theorem dispatchAttempts_le (outcomes : List DeliveryOutcome) (r : Recipient)
    (h : r.retry_count ≤ r.max_retries) :
    (dispatchAttempts outcomes r : Int) ≤
      r.max_retries - r.retry_count + 1 := by
  induction outcomes generalizing r with
  | nil =>
      simp [dispatchAttempts]
      omega
  | cons o rest ih =>
      by_cases helig : r.dispatch_eligible = true
      · have hlt := eligible_retry_lt r helig
        cases o with
        | success =>
            have hstep : dispatchStep DeliveryOutcome.success r =
                { r with delivery_status := "delivered" } := by
              simp [dispatchStep, helig]
            have hzero : dispatchAttempts rest
                (dispatchStep DeliveryOutcome.success r) = 0 := by
              rw [hstep]
              apply dispatchAttempts_of_not_eligible
              simp [Recipient.dispatch_eligible]
            simp only [dispatchAttempts, helig, if_true, hzero]
            simp
            omega
        | failure reason =>
            have hstep : dispatchStep (DeliveryOutcome.failure reason) r =
                { r with
                  delivery_status := "failed",
                  retry_count := r.retry_count + 1,
                  failure_reason := some reason } := by
              simp [dispatchStep, helig]
            have hrec := ih ({ r with
                delivery_status := "failed",
                retry_count := r.retry_count + 1,
                failure_reason := some reason }) (by simpa using hlt)
            simp only [dispatchAttempts, helig, if_true, hstep]
            simp at hrec ⊢
            omega
      · have hne : r.dispatch_eligible = false := by
          simpa using helig
        simp only [dispatchAttempts, hne,
          dispatchStep_of_not_eligible o r hne]
        have hrec := ih r h
        simp
        omega

theorem dispatchAttempts_le_of_not_terminal (outcomes : List DeliveryOutcome)
    (r : Recipient) (h : r.retry_count ≤ r.max_retries)
    (hnt : ¬ (dispatchRun outcomes r).delivery_terminal) :
    (dispatchAttempts outcomes r : Int) ≤ r.max_retries - r.retry_count := by
  induction outcomes generalizing r with
  | nil =>
      simp [dispatchAttempts]
      omega
  | cons o rest ih =>
      by_cases helig : r.dispatch_eligible = true
      · have hlt := eligible_retry_lt r helig
        cases o with
        | success =>
            exfalso
            apply hnt
            have hstep : dispatchStep DeliveryOutcome.success r =
                { r with delivery_status := "delivered" } := by
              simp [dispatchStep, helig]
            have hterm : ({ r with delivery_status := "delivered" }
                : Recipient).delivery_terminal := Or.inl rfl
            simp only [dispatchRun, hstep,
              dispatchRun_of_terminal rest _ hterm]
            exact hterm
        | failure reason =>
            have hstep : dispatchStep (DeliveryOutcome.failure reason) r =
                { r with
                  delivery_status := "failed",
                  retry_count := r.retry_count + 1,
                  failure_reason := some reason } := by
              simp [dispatchStep, helig]
            simp only [dispatchRun, hstep] at hnt
            have hrec := ih ({ r with
                delivery_status := "failed",
                retry_count := r.retry_count + 1,
                failure_reason := some reason }) (by simpa using hlt) hnt
            simp only [dispatchAttempts, helig, if_true, hstep]
            simp at hrec ⊢
            omega
      · have hne : r.dispatch_eligible = false := by
          simpa using helig
        simp only [dispatchRun, dispatchStep_of_not_eligible o r hne] at hnt
        simp only [dispatchAttempts, hne,
          dispatchStep_of_not_eligible o r hne]
        have hrec := ih r h hnt
        simp
        omega

/-- C7: starting from a freshly created recipient (`retry_count = 0`, a
nonnegative `max_retries`), every state reachable through the dispatcher
satisfies `retry_count ≤ max_retries`; a recipient that is `delivered`, or
`failed` with `retry_count = max_retries`, is never attempted again; at
most `max_retries + 1` delivery attempts occur in any run; and any run that
has not reached a terminal delivery state has performed at most
`max_retries` attempts — so the `(max_retries + 1)`-st attempt, when it
happens, is the one that reaches a terminal state. -/
theorem recipient_retry_invariant (outcomes : List DeliveryOutcome)
    (r : Recipient) (h0 : r.retry_count = 0) (hm : 0 ≤ r.max_retries) :
    (dispatchRun outcomes r).retry_count ≤ r.max_retries ∧
    (∀ o rt, Recipient.delivery_terminal rt → dispatchStep o rt = rt) ∧
    (dispatchAttempts outcomes r : Int) ≤ r.max_retries + 1 ∧
    (¬ (dispatchRun outcomes r).delivery_terminal →
      (dispatchAttempts outcomes r : Int) ≤ r.max_retries) := by
  refine ⟨?_, fun o rt hrt => dispatchStep_of_terminal o rt hrt, ?_, ?_⟩
  · have h1 := dispatchRun_retry_le outcomes r (by omega)
    rwa [dispatchRun_max_retries] at h1
  · have h2 := dispatchAttempts_le outcomes r (by omega)
    omega
  · intro hnt
    have h3 := dispatchAttempts_le_of_not_terminal outcomes r (by omega) hnt
    omega

/-- A freshly created recipient: `delivery_status = pending`,
`retry_count = 0`, `max_retries = 3`. -/
def recipientFresh : Recipient :=
  { email := "alice@example.com", delivery_status := "pending",
    failure_reason := none, retry_count := 0, max_retries := 3 }

/-- The fresh recipient after a successful delivery. -/
def recipientDone : Recipient :=
  { recipientFresh with delivery_status := "delivered" }

/-- C7 witness: running five consecutive transport failures against the
fresh recipient keeps `retry_count` within `max_retries = 3` and performs at
most four attempts, and a delivered recipient is left untouched by a
further step. -/
theorem recipient_retry_invariant_witness :
    (dispatchRun (List.replicate 5 (DeliveryOutcome.failure "timeout"))
        recipientFresh).retry_count ≤ recipientFresh.max_retries ∧
    dispatchStep DeliveryOutcome.success recipientDone = recipientDone ∧
    (dispatchAttempts (List.replicate 5 (DeliveryOutcome.failure "timeout"))
        recipientFresh : Int) ≤ recipientFresh.max_retries + 1 :=
  ⟨(recipient_retry_invariant _ recipientFresh rfl (by decide)).1,
   (recipient_retry_invariant [] recipientFresh rfl (by decide)).2.1
     DeliveryOutcome.success recipientDone (Or.inl rfl),
   (recipient_retry_invariant _ recipientFresh rfl (by decide)).2.2.1⟩
